import Mathlib

/-!
Verification development for a webhook relay service: the service receives
blockchain transaction events, filters for withdrawal-type events,
deduplicates them by transaction signature, and relays a formatted
notification to a Telegram chat. Three variants of the ingress handler are
present in the source: one with no deduplication, one with a bounded
in-memory set, and one backed by an external Redis store with per-key
expiry. This file embeds the data model and operations of all three
variants and proves the spec claims about them.
-/

namespace KaminoLiquidity

/-! ## String helpers

The handler tests `type.toLowerCase().includes("withdraw")`; we model the
substring check over character lists. -/

/-- `leadsChars needle hay` holds when `needle` is a leading segment of `hay`. -/
def leadsChars : List Char → List Char → Bool
  | [], _ => true
  | _ :: _, [] => false
  | a :: as, b :: bs => a == b && leadsChars as bs

/-- `occursChars needle hay` holds when `needle` occurs contiguously in `hay`
(the semantics of JavaScript `String.prototype.includes`). -/
def occursChars (needle : List Char) : List Char → Bool
  | [] => leadsChars needle []
  | b :: bs => leadsChars needle (b :: bs) || occursChars needle bs

/-- `containsSubstr hay needle` models `hay.includes(needle)`. -/
def containsSubstr (hay needle : String) : Bool :=
  occursChars needle.toList hay.toList

/-- `toLowerStr` models `String.prototype.toLowerCase` (character-wise
lowercasing; the strings involved here are ASCII). -/
def toLowerStr (s : String) : String :=
  String.mk (s.toList.map Char.toLower)

/-! ## ISO-8601 timestamp rendering

Models `new Date(ms).toISOString()` for non-negative epoch milliseconds. -/

def pad2 (n : Nat) : String :=
  if n < 10 then "0" ++ toString n else toString n

def pad3 (n : Nat) : String :=
  if n < 10 then "00" ++ toString n
  else if n < 100 then "0" ++ toString n
  else toString n

def pad4 (n : Nat) : String :=
  if n < 10 then "000" ++ toString n
  else if n < 100 then "00" ++ toString n
  else if n < 1000 then "0" ++ toString n
  else toString n

/-- Convert a count of days since 1970-01-01 to a civil (year, month, day)
triple, by the standard days-from-civil inversion. -/
def civilFromDays (days : Nat) : Nat × Nat × Nat :=
  let z := days + 719468
  let era := z / 146097
  let doe := z % 146097
  let yoe := (doe - doe / 1460 + doe / 36524 - doe / 146096) / 365
  let y := yoe + era * 400
  let doy := doe - (365 * yoe + yoe / 4 - yoe / 100)
  let mp := (5 * doy + 2) / 153
  let d := doy - (153 * mp + 2) / 5 + 1
  let m := if mp < 10 then mp + 3 else mp - 9
  (if m ≤ 2 then y + 1 else y, m, d)

/-- `toISOString ms` renders epoch milliseconds as `YYYY-MM-DDTHH:MM:SS.mmmZ`,
the format produced by `Date.prototype.toISOString`. -/
def toISOString (ms : Nat) : String :=
  let msec := ms % 1000
  let totalSecs := ms / 1000
  let s := totalSecs % 60
  let totalMins := totalSecs / 60
  let mi := totalMins % 60
  let totalHours := totalMins / 60
  let h := totalHours % 24
  let days := totalHours / 24
  let ymd := civilFromDays days
  pad4 ymd.1 ++ "-" ++ pad2 ymd.2.1 ++ "-" ++ pad2 ymd.2.2 ++ "T" ++
    pad2 h ++ ":" ++ pad2 mi ++ ":" ++ pad2 s ++ "." ++ pad3 msec ++ "Z"

/-! ## Data model

Raw events as delivered by the webhook sender. Fields that the source reads
through `||` defaulting are optional; `signature`, `timestamp` and `fee` are
guaranteed present by the sender (spec section 4.1). JavaScript numbers on
the event are integers (epoch seconds, lamports); token amounts are modelled
as exact rationals. -/

structure Transfer where
  fromUserAccount : String
  toUserAccount : String
  mint : String
  tokenAmount : Rat
  deriving Repr, DecidableEq

structure Event where
  signature : String
  timestamp : Nat
  type : Option String
  description : Option String
  source : Option String
  fee : Nat
  tokenTransfers : Option (List Transfer)
  deriving Repr, DecidableEq

/-- Withdrawal detail derived from the first token transfer. -/
structure Withdrawal where
  fromAccount : String
  toAccount : String
  token : String
  amount : Rat
  mint : String
  deriving Repr, DecidableEq

/-- The normalized withdrawal summary produced by `decodeWebhookEvent`. -/
structure DecodedEvent where
  signature : String
  timestamp : String
  type : String
  source : String
  withdrawal : Option Withdrawal
  fee : Rat
  deriving Repr, DecidableEq

/-! ## Known-token table and decoder -/

/-- Static mapping from mint identifier to display symbol (`KNOWN_TOKENS`). -/
def KNOWN_TOKENS : List (String × String) :=
  [("EPjFWdd5AufqSSqeM2qN1xzybapC8G4wEGGkZwyTDt1v", "USDC"),
   ("2b1kV6DkPAnxd5ixfnxCpjxmKwqjjaYmCZfHsFu24GXo", "PYUSD"),
   ("38wQFRuj6FezzGYegzHdqrRK7hkEkBx7wSqxDBYXpKpy", "kPUSD-USDC")]

def lookupKnownToken (mint : String) : Option String :=
  (KNOWN_TOKENS.find? (fun p => p.1 == mint)).map (fun p => p.2)

/-- `KNOWN_TOKENS[mint] || mint.slice(0, 8) + "..."` (the mapped symbols are
all non-empty strings, so the short-circuit never falls through on a hit). -/
def tokenSymbol (mint : String) : String :=
  (lookupKnownToken mint).getD (mint.take 8 ++ "...")

/-- `decodeWebhookEvent` (identical in all three source variants): build a
withdrawal summary from a raw event, reading only the first token transfer.
An absent or empty `type` falls back to "UNKNOWN" and an absent or empty
`source` to "Unknown" (JavaScript `||` treats the empty string as falsy). -/
def decodeWebhookEvent (event : Event) : DecodedEvent :=
  let timestamp := toISOString (event.timestamp * 1000)
  let ty := if event.type.getD "" = "" then "UNKNOWN" else event.type.getD ""
  let src := if event.source.getD "" = "" then "Unknown" else event.source.getD ""
  let tokenTransfers := event.tokenTransfers.getD []
  let withdrawal :=
    match tokenTransfers with
    | [] => none
    | transfer :: _ =>
      some { fromAccount := transfer.fromUserAccount
             toAccount := transfer.toUserAccount
             token := tokenSymbol transfer.mint
             amount := transfer.tokenAmount
             mint := transfer.mint }
  { signature := event.signature
    timestamp := timestamp
    type := ty
    source := src
    withdrawal := withdrawal
    fee := (event.fee : Rat) / 1000000000 }

/-! ## Message formatter -/

/-- Render a rational the way the template string would render the JavaScript
number (exact integers without a fractional part, others as num/den). The
claims under verification do not depend on this rendering. -/
def ratDisplay (q : Rat) : String :=
  if q.den = 1 then toString q.num else toString q.num ++ "/" ++ toString q.den

/-- `formatTelegramMessage`: fixed HTML template with a conditional
token-transfer block. -/
def formatTelegramMessage (decoded : DecodedEvent) : String :=
  let header := "🔔 <b>New Withdrawal Detected</b>\n\n"
  let withBody :=
    match decoded.withdrawal with
    | none => header
    | some w =>
      header ++ "<b>Token Transfer:</b>\n\n" ++
      "<b>" ++ w.token ++ "</b>\n" ++
      "Amount: " ++ ratDisplay w.amount ++ "\n" ++
      "From: <code>" ++ w.fromAccount ++ "</code>\n" ++
      "To: <code>" ++ w.toAccount ++ "</code>\n"
  withBody ++ "\n🔗 <b>Transaction:</b>\n<code>" ++ decoded.signature ++ "</code>\n" ++
    "\n<a href=\"https://solscan.io/tx/" ++ decoded.signature ++ "\">View on Solscan</a>"

/-! ## Notifier

`sendTelegramMessage` performs one `fetch` to the Telegram API inside a
try/catch. The environment decides the outcome of the network call: either
the transport throws (fetch rejection or body-parse failure), or an API
result object is obtained (with its `ok` flag and optional description).
The function catches the throw and returns `null` (modelled `none`);
otherwise it logs and returns the parsed result. -/

/-- Parsed Telegram API response (`result` in the source). -/
structure TgResult where
  ok : Bool
  description : String
  deriving Repr, DecidableEq

/-- Outcome of the outbound network call, chosen by the environment. -/
inductive TgResponse where
  | transportError : TgResponse
  | api (ok : Bool) (description : String) : TgResponse
  deriving Repr, DecidableEq

/-- `sendTelegramMessage` (identical in all three source variants): never
throws to the caller; transport failure is caught and yields `null`, an API
response is returned as-is whether or not `result.ok` holds. -/
def sendTelegramMessage : TgResponse → Option TgResult
  | .transportError => none
  | .api ok d => some { ok := ok, description := d }

/-! ## Ingress handlers

Each handler processes a payload (single event or array) in sequence order.
We record what each event caused as a trace of actions, so that ordering
facts (for example, the store write preceding the delivery attempt) are
visible in the result. -/

/-- One observable action of the handler loop. `dedupCheck` records a store
lookup and whether it hit; `dedupCheckFailed` a lookup that threw (Redis
variant); `markProcessed` a store write; `markFailed` a store write that
threw (Redis variant); `deliver` a Telegram send attempt together with the
value `sendTelegramMessage` returned for it. -/
inductive Action where
  | dedupCheck (signature : String) (hit : Bool) : Action
  | dedupCheckFailed (signature : String) : Action
  | markProcessed (signature : String) : Action
  | markFailed (signature : String) : Action
  | deliver (message : String) (result : Option TgResult) : Action
  deriving Repr, DecidableEq

/-- The messages of the delivery attempts in a trace. -/
def deliveries : List Action → List String
  | [] => []
  | .deliver m _ :: rest => m :: deliveries rest
  | _ :: rest => deliveries rest

/-- The withdrawal-match predicate of the handler loop: the lowercase type
or the lowercase description contains "withdraw" (absent fields default to
the empty string). -/
def withdrawMatch (event : Event) : Bool :=
  containsSubstr (toLowerStr (event.type.getD "")) "withdraw" ||
    containsSubstr (toLowerStr (event.description.getD "")) "withdraw"

/-- An inbound payload: a single event object or an array of events. -/
inductive Payload where
  | single (event : Event) : Payload
  | batch (events : List Event) : Payload

/-- `Array.isArray(payload) ? payload : [payload]`. -/
def eventsOf : Payload → List Event
  | .single e => [e]
  | .batch es => es

/-- The acknowledgement sent to the webhook sender:
`res.status(200).json({received: true})`. -/
structure Ack where
  status : Nat
  received : Bool
  deriving Repr, DecidableEq

/-! ### Variant 1: bounded in-memory set

`processedTransactions` is a JavaScript `Set`, which iterates in insertion
order; we model it as a duplicate-free list in insertion order. -/

/-- `Set.prototype.add`: append if absent, leave unchanged if present. -/
def setAdd (st : List String) (sig : String) : List String :=
  if st.contains sig then st else st ++ [sig]

def MAX_CACHE_SIZE : Nat := 1000

/-- The `setInterval` period of the cleanup task, in milliseconds. -/
def CLEANUP_INTERVAL_MS : Nat := 300000

/-- The body of the periodic cleanup task:
`Array.from(processedTransactions).slice(-MAX_CACHE_SIZE)` then clear and
re-add, keeping the most recently added `MAX_CACHE_SIZE` signatures in
insertion order when the set exceeds that size. -/
def cleanupCache (st : List String) : List String :=
  if st.length > MAX_CACHE_SIZE then st.drop (st.length - MAX_CACHE_SIZE) else st

/-- One iteration of the in-memory handler loop: dedup check, withdrawal
filter, then (on a match) mark processed before decode/format/send. -/
def processEventMem (st : List String) (env : TgResponse) (event : Event) :
    List String × List Action :=
  if st.contains event.signature then
    (st, [.dedupCheck event.signature true])
  else if withdrawMatch event then
    (setAdd st event.signature,
     [.dedupCheck event.signature false,
      .markProcessed event.signature,
      .deliver (formatTelegramMessage (decodeWebhookEvent event)) (sendTelegramMessage env)])
  else
    (setAdd st event.signature,
     [.dedupCheck event.signature false, .markProcessed event.signature])

/-- The in-memory handler loop over a batch; `envs i` is the network outcome
for the send of event `i`, if one happens. -/
def processBatchMem (st : List String) (events : List Event) (envs : Nat → TgResponse) :
    List String × List Action :=
  match events with
  | [] => (st, [])
  | e :: rest =>
    let r := processEventMem st (envs 0) e
    let r2 := processBatchMem r.1 rest (fun i => envs (i + 1))
    (r2.1, r.2 ++ r2.2)

/-- The in-memory `/webhook` handler: responds `200 {received: true}` before
processing, then runs the loop. -/
def webhookMem (st : List String) (payload : Payload) (envs : Nat → TgResponse) :
    Ack × List String × List Action :=
  ({ status := 200, received := true }, processBatchMem st (eventsOf payload) envs)

/-! ### Variant 2: external Redis store

Live keys (those set and not yet expired) are modelled as a list of strings;
each `markProcessed` sets `tx:<signature>` with a 900 second TTL. The
environment decides, per event, whether `redis.get` throws, whether
`redis.set` throws, and the Telegram outcome. The whole per-event body sits
in a try/catch, so a throw abandons the rest of that event's processing and
the loop moves on. -/

/-- The per-key TTL passed to `redis.set`, in seconds. -/
def REDIS_TTL_SECONDS : Nat := 900

/-- Per-event environment for the Redis variant. -/
structure RedisEnv where
  getFails : Bool
  setFails : Bool
  tg : TgResponse

/-- The cache key: `tx:` followed by the transaction signature. -/
def txKey (signature : String) : String := "tx:" ++ signature

/-- One iteration of the Redis handler loop. A `redis.get` throw is caught
and the event is abandoned; a `redis.set` throw on either branch is caught
and the remaining steps of that event (decode/format/send on the matched
branch) are abandoned. -/
def processEventRedis (store : List String) (env : RedisEnv) (event : Event) :
    List String × List Action :=
  if env.getFails then
    (store, [.dedupCheckFailed event.signature])
  else if store.contains (txKey event.signature) then
    (store, [.dedupCheck event.signature true])
  else if withdrawMatch event then
    if env.setFails then
      (store, [.dedupCheck event.signature false, .markFailed event.signature])
    else
      (setAdd store (txKey event.signature),
       [.dedupCheck event.signature false,
        .markProcessed event.signature,
        .deliver (formatTelegramMessage (decodeWebhookEvent event)) (sendTelegramMessage env.tg)])
  else
    if env.setFails then
      (store, [.dedupCheck event.signature false, .markFailed event.signature])
    else
      (setAdd store (txKey event.signature),
       [.dedupCheck event.signature false, .markProcessed event.signature])

/-- The Redis handler loop over a batch. -/
def processBatchRedis (store : List String) (events : List Event) (envs : Nat → RedisEnv) :
    List String × List Action :=
  match events with
  | [] => (store, [])
  | e :: rest =>
    let r := processEventRedis store (envs 0) e
    let r2 := processBatchRedis r.1 rest (fun i => envs (i + 1))
    (r2.1, r.2 ++ r2.2)

/-- The Redis `/webhook` handler: runs the loop, then responds
`200 {received: true}` unconditionally. -/
def webhookRedis (store : List String) (payload : Payload) (envs : Nat → RedisEnv) :
    Ack × List String × List Action :=
  ({ status := 200, received := true }, processBatchRedis store (eventsOf payload) envs)

/-! ### Variant 3: no deduplication -/

/-- One iteration of the no-dedup handler loop: filter, then
decode/format/send on a match; no store of any kind. -/
def processEventNone (env : TgResponse) (event : Event) : List Action :=
  if withdrawMatch event then
    [.deliver (formatTelegramMessage (decodeWebhookEvent event)) (sendTelegramMessage env)]
  else []

/-- The no-dedup handler loop over a batch. -/
def processBatchNone (events : List Event) (envs : Nat → TgResponse) : List Action :=
  match events with
  | [] => []
  | e :: rest =>
    processEventNone (envs 0) e ++ processBatchNone rest (fun i => envs (i + 1))

/-- The no-dedup `/webhook` handler: runs the loop, then responds
`200 {received: true}` unconditionally. -/
def webhookNone (payload : Payload) (envs : Nat → TgResponse) : Ack × List Action :=
  ({ status := 200, received := true }, processBatchNone (eventsOf payload) envs)

/-! ## Helper lemmas -/

theorem deliveries_append (a b : List Action) :
    deliveries (a ++ b) = deliveries a ++ deliveries b := by
  induction a with
  | nil => rfl
  | cons x rest ih => cases x <;> simp [deliveries, ih]

theorem setAdd_contains_self (st : List String) (s : String) :
    (setAdd st s).contains s = true := by
  unfold setAdd
  split
  case isTrue h => exact h
  case isFalse h => simp

theorem contains_processEventMem (st : List String) (env : TgResponse) (e : Event) :
    ((processEventMem st env e).1).contains e.signature = true := by
  unfold processEventMem
  split
  case isTrue h => exact h
  case isFalse h => split <;> exact setAdd_contains_self st e.signature

theorem deliveries_processEventMem_length (st : List String) (env : TgResponse) (e : Event) :
    (deliveries (processEventMem st env e).2).length ≤ 1 := by
  unfold processEventMem
  split
  · simp [deliveries]
  · split <;> simp [deliveries]

theorem processEventMem_skip (st : List String) (env : TgResponse) (e : Event)
    (h : st.contains e.signature = true) :
    processEventMem st env e = (st, [.dedupCheck e.signature true]) := by
  unfold processEventMem
  rw [if_pos h]

theorem deliveries_processEventRedis_length (store : List String) (env : RedisEnv) (e : Event) :
    (deliveries (processEventRedis store env e).2).length ≤ 1 := by
  unfold processEventRedis
  split
  · simp [deliveries]
  · split
    · simp [deliveries]
    · split <;> split <;> simp [deliveries]

theorem processEventRedis_skip (store : List String) (env : RedisEnv) (e : Event)
    (hg : env.getFails = false) (hc : store.contains (txKey e.signature) = true) :
    processEventRedis store env e = (store, [.dedupCheck e.signature true]) := by
  unfold processEventRedis
  rw [if_neg (by simp [hg]), if_pos hc]

/-- A Redis store lookup that hits, or a lookup that fails, produces no
delivery for that event. -/
theorem deliveries_processEventRedis_of_contains (store : List String) (env : RedisEnv)
    (e : Event) (hc : store.contains (txKey e.signature) = true) :
    deliveries (processEventRedis store env e).2 = [] := by
  unfold processEventRedis
  cases hg : env.getFails with
  | true => simp [deliveries]
  | false => rw [if_neg (by simp), if_pos hc]; simp [deliveries]

/-- Each Redis event either delivers nothing, or delivers exactly once and
leaves its cache key present in the resulting store. -/
theorem processEventRedis_cases (store : List String) (env : RedisEnv) (e : Event) :
    deliveries (processEventRedis store env e).2 = [] ∨
    ((deliveries (processEventRedis store env e).2).length = 1 ∧
      ((processEventRedis store env e).1).contains (txKey e.signature) = true) := by
  unfold processEventRedis
  split
  · left; simp [deliveries]
  · split
    · left; simp [deliveries]
    · split
      · split
        · left; simp [deliveries]
        · right
          exact ⟨by simp [deliveries], setAdd_contains_self store (txKey e.signature)⟩
      · split
        · left; simp [deliveries]
        · left; simp [deliveries]

theorem processEventMem_state_env (st : List String) (env env' : TgResponse) (e : Event) :
    (processEventMem st env e).1 = (processEventMem st env' e).1 := by
  unfold processEventMem
  split <;> first | rfl | (split <;> rfl)

theorem processEventMem_deliveries_env (st : List String) (env env' : TgResponse) (e : Event) :
    deliveries (processEventMem st env e).2 = deliveries (processEventMem st env' e).2 := by
  unfold processEventMem
  split
  · rfl
  · split <;> simp [deliveries]

theorem processBatchMem_singleton (st : List String) (e : Event) (envs : Nat → TgResponse) :
    processBatchMem st [e] envs = processEventMem st (envs 0) e := by
  simp [processBatchMem]

theorem processBatchRedis_singleton (store : List String) (e : Event) (envs : Nat → RedisEnv) :
    processBatchRedis store [e] envs = processEventRedis store (envs 0) e := by
  simp [processBatchRedis]

/-! ## Concrete sample inputs -/

/-- A matched withdrawal event with one token transfer (the end-to-end
scenario of spec section 8). -/
def evWithdraw : Event :=
  { signature := "abc123"
    timestamp := 1700000000
    type := some "WITHDRAW_SOL"
    description := none
    source := some "KAMINO"
    fee := 5000000
    tokenTransfers := some
      [{ fromUserAccount := "A"
         toUserAccount := "B"
         mint := "EPjFWdd5AufqSSqeM2qN1xzybapC8G4wEGGkZwyTDt1v"
         tokenAmount := 10 }] }

/-- A non-matching event: no "withdraw" in type or description. -/
def evDeposit : Event :=
  { signature := "dep456"
    timestamp := 1700000100
    type := some "DEPOSIT"
    description := some "user deposit into vault"
    source := none
    fee := 5000
    tokenTransfers := none }

/-- A Redis environment whose store lookup throws. -/
def envGetFail : RedisEnv :=
  { getFails := true, setFails := false, tg := .api true "" }

/-- A Redis environment with healthy store and Telegram transport failure. -/
def envSendFail : RedisEnv :=
  { getFails := false, setFails := false, tg := .transportError }

/-- A Redis environment whose store write throws. -/
def envSetFail : RedisEnv :=
  { getFails := false, setFails := true, tg := .api true "" }

/-- A per-event environment sequence: the first event's store lookup throws,
every later event sees a healthy store. -/
def envsMixed : Nat → RedisEnv
  | 0 => envGetFail
  | _ + 1 => envSendFail

/-! ## Claims -/

/-- C2: for every inbound payload (single event or array), each of the three
handler variants responds with status 200 and body with `received = true`,
whatever the per-event outcomes chosen by the environment (delivery
failures, and for the Redis variant store failures) are; no per-event
failure reaches the sender. -/
theorem ack_always_success :
    (∀ (st : List String) (payload : Payload) (envs : Nat → TgResponse),
        (webhookMem st payload envs).1 = { status := 200, received := true }) ∧
    (∀ (store : List String) (payload : Payload) (envs : Nat → RedisEnv),
        (webhookRedis store payload envs).1 = { status := 200, received := true }) ∧
    (∀ (payload : Payload) (envs : Nat → TgResponse),
        (webhookNone payload envs).1 = { status := 200, received := true }) :=
  ⟨fun _ _ _ => rfl, fun _ _ _ => rfl, fun _ _ => rfl⟩

/-- C4: the decoder builds its withdrawal detail solely from the first
element of `tokenTransfers` (from, to, resolved symbol, amount, mint),
whatever transfers follow; when `tokenTransfers` is empty or absent the
withdrawal detail is `none` while the summary still carries the signature,
the ISO-8601 timestamp, the type, the source and the converted fee. -/
theorem decoder_uses_first_transfer_only :
    (∀ (e : Event) (t : Transfer) (rest : List Transfer),
        e.tokenTransfers = some (t :: rest) →
        (decodeWebhookEvent e).withdrawal =
          some { fromAccount := t.fromUserAccount
                 toAccount := t.toUserAccount
                 token := tokenSymbol t.mint
                 amount := t.tokenAmount
                 mint := t.mint }) ∧
    (∀ e : Event, (e.tokenTransfers = none ∨ e.tokenTransfers = some []) →
        (decodeWebhookEvent e).withdrawal = none ∧
        (decodeWebhookEvent e).signature = e.signature ∧
        (decodeWebhookEvent e).timestamp = toISOString (e.timestamp * 1000) ∧
        (decodeWebhookEvent e).type =
          (if e.type.getD "" = "" then "UNKNOWN" else e.type.getD "") ∧
        (decodeWebhookEvent e).source =
          (if e.source.getD "" = "" then "Unknown" else e.source.getD "") ∧
        (decodeWebhookEvent e).fee = (e.fee : Rat) / 1000000000) := by
  constructor
  · intro e t rest h
    unfold decodeWebhookEvent
    rw [h]
    rfl
  · intro e h
    rcases h with h | h <;> (unfold decodeWebhookEvent; rw [h]) <;>
      exact ⟨rfl, rfl, rfl, rfl, rfl, rfl⟩

/-- Witness for C4: the decoder applied to the concrete withdrawal event
(one transfer with the USDC mint) and to the concrete transfer-less event. -/
theorem decoder_uses_first_transfer_only_witness :
    (decodeWebhookEvent evWithdraw).withdrawal =
      some { fromAccount := "A", toAccount := "B", token := "USDC",
             amount := 10, mint := "EPjFWdd5AufqSSqeM2qN1xzybapC8G4wEGGkZwyTDt1v" } ∧
    (decodeWebhookEvent evDeposit).withdrawal = none := by
  constructor
  · have h := decoder_uses_first_transfer_only.1 evWithdraw
      { fromUserAccount := "A", toUserAccount := "B",
        mint := "EPjFWdd5AufqSSqeM2qN1xzybapC8G4wEGGkZwyTDt1v", tokenAmount := 10 }
      [] rfl
    rw [h]
    rfl
  · exact (decoder_uses_first_transfer_only.2 evDeposit (Or.inl rfl)).1

/-- C5: a mint present in the known-token table resolves to its mapped
symbol (USDC, PYUSD, kPUSD-USDC); a mint not in the table resolves to its
first 8 characters followed by an ellipsis marker. -/
theorem token_symbol_resolution :
    (tokenSymbol "EPjFWdd5AufqSSqeM2qN1xzybapC8G4wEGGkZwyTDt1v" = "USDC" ∧
     tokenSymbol "2b1kV6DkPAnxd5ixfnxCpjxmKwqjjaYmCZfHsFu24GXo" = "PYUSD" ∧
     tokenSymbol "38wQFRuj6FezzGYegzHdqrRK7hkEkBx7wSqxDBYXpKpy" = "kPUSD-USDC") ∧
    (∀ mint sym, lookupKnownToken mint = some sym → tokenSymbol mint = sym) ∧
    (∀ mint : String, lookupKnownToken mint = none → 8 ≤ mint.length →
        tokenSymbol mint = mint.take 8 ++ "...") := by
  refine ⟨⟨rfl, rfl, rfl⟩, ?_, ?_⟩
  · intro mint sym h
    unfold tokenSymbol
    rw [h]
    rfl
  · intro mint h _
    unfold tokenSymbol
    rw [h]
    rfl

/-- Witness for C5: the wrapped-SOL mint is not in the table, has length 43,
and resolves to its truncated form. -/
theorem token_symbol_resolution_witness :
    lookupKnownToken "So11111111111111111111111111111111111111112" = none ∧
    8 ≤ ("So11111111111111111111111111111111111111112" : String).length ∧
    tokenSymbol "So11111111111111111111111111111111111111112" = "So111111..." := by
  refine ⟨by decide, by decide, ?_⟩
  have h := token_symbol_resolution.2.2 "So11111111111111111111111111111111111111112"
    (by decide) (by decide)
  rw [h]
  rfl

/-- C6: the decoded summary's fee is the raw integer fee divided exactly by
1,000,000,000 (exact rational division, no rounding); at input fee 5000000
the displayed fee is 0.005. -/
theorem fee_conversion_exact :
    (∀ e : Event, (decodeWebhookEvent e).fee = (e.fee : Rat) / 1000000000) ∧
    (decodeWebhookEvent evWithdraw).fee = 0.005 := by
  constructor
  · intro e
    rfl
  · show ((5000000 : Nat) : Rat) / 1000000000 = 0.005
    norm_num

/-- C1: in the in-memory and Redis variants, an event whose signature is
already present in the deduplication store at the per-event check is skipped
entirely (the trace holds only the hit lookup: no store write, no decode,
no format, no delivery, state unchanged); consequently two sequential
single-event requests carrying the same event produce at most one delivery
attempt in total (for Redis, under any per-event environment, within the
retention window so no key expires between the requests). -/
theorem dedup_hit_skips_and_idempotent :
    (∀ (st : List String) (env : TgResponse) (e : Event),
        st.contains e.signature = true →
        processEventMem st env e = (st, [.dedupCheck e.signature true])) ∧
    (∀ (store : List String) (env : RedisEnv) (e : Event),
        env.getFails = false →
        store.contains (txKey e.signature) = true →
        processEventRedis store env e = (store, [.dedupCheck e.signature true])) ∧
    (∀ (st : List String) (e : Event) (env1 env2 : Nat → TgResponse),
        (deliveries (webhookMem st (.single e) env1).2.2).length +
          (deliveries (webhookMem (webhookMem st (.single e) env1).2.1
            (.single e) env2).2.2).length ≤ 1) ∧
    (∀ (store : List String) (e : Event) (env1 env2 : Nat → RedisEnv),
        (deliveries (webhookRedis store (.single e) env1).2.2).length +
          (deliveries (webhookRedis (webhookRedis store (.single e) env1).2.1
            (.single e) env2).2.2).length ≤ 1) := by
  refine ⟨processEventMem_skip, processEventRedis_skip, ?_, ?_⟩
  · intro st e env1 env2
    simp only [webhookMem, eventsOf, processBatchMem_singleton]
    rw [processEventMem_skip _ (env2 0) e (contains_processEventMem st (env1 0) e)]
    have h := deliveries_processEventMem_length st (env1 0) e
    simp [deliveries]
    omega
  · intro store e env1 env2
    simp only [webhookRedis, eventsOf, processBatchRedis_singleton]
    rcases processEventRedis_cases store (env1 0) e with h | ⟨h1, h2⟩
    · rw [h]
      have := deliveries_processEventRedis_length
        (processEventRedis store (env1 0) e).1 (env2 0) e
      simpa using this
    · rw [h1, deliveries_processEventRedis_of_contains _ (env2 0) e h2]
      simp

/-- Witness for C1: concrete hit in each store variant is skipped. -/
theorem dedup_hit_skips_and_idempotent_witness :
    processEventMem ["abc123"] .transportError evWithdraw =
      (["abc123"], [.dedupCheck "abc123" true]) ∧
    processEventRedis [txKey "abc123"] envSendFail evWithdraw =
      ([txKey "abc123"], [.dedupCheck "abc123" true]) := by
  constructor
  · exact dedup_hit_skips_and_idempotent.1 ["abc123"] .transportError evWithdraw (by decide)
  · exact dedup_hit_skips_and_idempotent.2.1 [txKey "abc123"] envSendFail evWithdraw
      rfl (by decide)

/-- C3: an event whose lowercase type and lowercase description (absent
fields read as empty strings) both lack the substring "withdraw" causes no
delivery, and in the dedup-backed variants its signature ends up recorded in
the store (for Redis, when the store operations succeed). -/
theorem non_withdrawal_recorded_no_delivery :
    (∀ (st : List String) (env : TgResponse) (e : Event), withdrawMatch e = false →
        deliveries (processEventMem st env e).2 = [] ∧
        ((processEventMem st env e).1).contains e.signature = true) ∧
    (∀ (store : List String) (env : RedisEnv) (e : Event), withdrawMatch e = false →
        env.getFails = false → env.setFails = false →
        deliveries (processEventRedis store env e).2 = [] ∧
        ((processEventRedis store env e).1).contains (txKey e.signature) = true) := by
  constructor
  · intro st env e h
    refine ⟨?_, contains_processEventMem st env e⟩
    unfold processEventMem
    split
    · simp [deliveries]
    · rw [if_neg (by simp [h])]
      simp [deliveries]
  · intro store env e h hg hs
    unfold processEventRedis
    rw [if_neg (by simp [hg])]
    split
    case isTrue hc => exact ⟨by simp [deliveries], hc⟩
    case isFalse hc =>
      rw [if_neg (by simp [h]), if_neg (by simp [hs])]
      exact ⟨by simp [deliveries], setAdd_contains_self store (txKey e.signature)⟩

/-- Witness for C3: the concrete deposit event is recorded but not
delivered, in both dedup-backed variants. -/
theorem non_withdrawal_recorded_no_delivery_witness :
    deliveries (processEventMem [] .transportError evDeposit).2 = [] ∧
    ((processEventMem [] .transportError evDeposit).1).contains "dep456" = true ∧
    deliveries (processEventRedis [] envSendFail evDeposit).2 = [] ∧
    ((processEventRedis [] envSendFail evDeposit).1).contains (txKey "dep456") = true := by
  obtain ⟨h1, h2⟩ := non_withdrawal_recorded_no_delivery.1 [] .transportError evDeposit
    (by decide)
  obtain ⟨h3, h4⟩ := non_withdrawal_recorded_no_delivery.2 [] envSendFail evDeposit
    (by decide) rfl rfl
  exact ⟨h1, h2, h3, h4⟩

/-- C7: the notifier never throws to its caller: a transport failure is
caught and yields the failure indicator `none`, an API response (success or
not) is returned as-is; and the ingress loop performs at most one delivery
attempt per event and proceeds identically whatever the delivery outcomes
are (same final store state, same attempted messages, in the in-memory and
no-dedup variants whose loops have no other environment). -/
theorem notifier_total_no_retry :
    sendTelegramMessage .transportError = none ∧
    (∀ (ok : Bool) (d : String),
        sendTelegramMessage (.api ok d) = some { ok := ok, description := d }) ∧
    (∀ (st : List String) (events : List Event) (envs envs' : Nat → TgResponse),
        (processBatchMem st events envs).1 = (processBatchMem st events envs').1 ∧
        deliveries (processBatchMem st events envs).2 =
          deliveries (processBatchMem st events envs').2) ∧
    (∀ (st : List String) (env : TgResponse) (e : Event),
        (deliveries (processEventMem st env e).2).length ≤ 1) ∧
    (∀ (events : List Event) (envs envs' : Nat → TgResponse),
        deliveries (processBatchNone events envs) =
          deliveries (processBatchNone events envs')) := by
  refine ⟨rfl, fun _ _ => rfl, ?_, deliveries_processEventMem_length, ?_⟩
  · intro st events envs envs'
    induction events generalizing st envs envs' with
    | nil => exact ⟨rfl, rfl⟩
    | cons e rest ih =>
      simp only [processBatchMem]
      have hst := processEventMem_state_env st (envs 0) (envs' 0) e
      have hd := processEventMem_deliveries_env st (envs 0) (envs' 0) e
      constructor
      · rw [hst]
        exact (ih _ _ _).1
      · rw [deliveries_append, deliveries_append, hd, hst]
        rw [(ih _ _ _).2]
  · intro events envs envs'
    induction events generalizing envs envs' with
    | nil => rfl
    | cons e rest ih =>
      simp only [processBatchNone, deliveries_append]
      have he : deliveries (processEventNone (envs 0) e) =
          deliveries (processEventNone (envs' 0) e) := by
        unfold processEventNone
        split <;> simp [deliveries]
      rw [he, ih _ _]

/-- C9: the in-memory cleanup task runs every 5 minutes; when the set holds
more than `MAX_CACHE_SIZE` (1000) signatures it keeps exactly the 1000 most
recently added ones in insertion order (the final segment of the
insertion-ordered list) and discards the earlier ones; a set of at most 1000
signatures is left unchanged. -/
theorem cleanup_retains_recent_thousand :
    CLEANUP_INTERVAL_MS = 5 * 60 * 1000 ∧
    MAX_CACHE_SIZE = 1000 ∧
    (∀ st : List String, st.length ≤ MAX_CACHE_SIZE → cleanupCache st = st) ∧
    (∀ st : List String, st.length > MAX_CACHE_SIZE →
        cleanupCache st = st.drop (st.length - MAX_CACHE_SIZE) ∧
        (cleanupCache st).length = MAX_CACHE_SIZE ∧
        st.take (st.length - MAX_CACHE_SIZE) ++ cleanupCache st = st) := by
  refine ⟨rfl, rfl, ?_, ?_⟩
  · intro st h
    unfold cleanupCache
    rw [if_neg (not_lt.mpr h)]
  · intro st h
    unfold cleanupCache
    rw [if_pos h]
    refine ⟨rfl, ?_, List.take_append_drop _ _⟩
    rw [List.length_drop]
    omega

/-- Witness for C9: a set of 1001 signatures is trimmed to its most recent
1000; a two-element set is left alone. -/
theorem cleanup_retains_recent_thousand_witness :
    cleanupCache (List.replicate 1001 "s") = List.replicate 1000 "s" ∧
    cleanupCache ["a", "b"] = ["a", "b"] := by
  constructor
  · have h := (cleanup_retains_recent_thousand.2.2.2 (List.replicate 1001 "s")
      (by rw [List.length_replicate]; norm_num [MAX_CACHE_SIZE])).1
    rw [h, List.length_replicate, List.drop_replicate]
    norm_num [MAX_CACHE_SIZE]
  · exact cleanup_retains_recent_thousand.2.2.1 ["a", "b"]
      (by norm_num [MAX_CACHE_SIZE])

/-- C10: in both dedup-backed variants, a matched withdrawal event not yet
in the store yields the trace lookup-miss, then `markProcessed`, then the
delivery attempt — the store write strictly precedes the delivery — under
every delivery outcome including failure; and reprocessing the same event
afterwards produces no further delivery attempt. -/
theorem mark_processed_before_delivery :
    (∀ (st : List String) (env : TgResponse) (e : Event),
        st.contains e.signature = false → withdrawMatch e = true →
        processEventMem st env e =
          (setAdd st e.signature,
           [.dedupCheck e.signature false,
            .markProcessed e.signature,
            .deliver (formatTelegramMessage (decodeWebhookEvent e))
              (sendTelegramMessage env)]) ∧
        ((processEventMem st env e).1).contains e.signature = true ∧
        (∀ env2, processEventMem (processEventMem st env e).1 env2 e =
            ((processEventMem st env e).1, [.dedupCheck e.signature true]))) ∧
    (∀ (store : List String) (env : RedisEnv) (e : Event),
        env.getFails = false → env.setFails = false →
        store.contains (txKey e.signature) = false → withdrawMatch e = true →
        processEventRedis store env e =
          (setAdd store (txKey e.signature),
           [.dedupCheck e.signature false,
            .markProcessed e.signature,
            .deliver (formatTelegramMessage (decodeWebhookEvent e))
              (sendTelegramMessage env.tg)]) ∧
        (∀ env2, deliveries (processEventRedis
            (processEventRedis store env e).1 env2 e).2 = [])) := by
  constructor
  · intro st env e hc hm
    have heq : processEventMem st env e =
        (setAdd st e.signature,
         [.dedupCheck e.signature false,
          .markProcessed e.signature,
          .deliver (formatTelegramMessage (decodeWebhookEvent e))
            (sendTelegramMessage env)]) := by
      unfold processEventMem
      rw [if_neg (by simp only [hc]; decide), if_pos hm]
    exact ⟨heq, contains_processEventMem st env e,
      fun env2 => processEventMem_skip _ env2 e (contains_processEventMem st env e)⟩
  · intro store env e hg hs hc hm
    have heq : processEventRedis store env e =
        (setAdd store (txKey e.signature),
         [.dedupCheck e.signature false,
          .markProcessed e.signature,
          .deliver (formatTelegramMessage (decodeWebhookEvent e))
            (sendTelegramMessage env.tg)]) := by
      unfold processEventRedis
      rw [if_neg (by simp only [hg]; decide), if_neg (by simp only [hc]; decide),
        if_pos hm, if_neg (by simp only [hs]; decide)]
    refine ⟨heq, fun env2 => ?_⟩
    apply deliveries_processEventRedis_of_contains
    rw [heq]
    exact setAdd_contains_self store (txKey e.signature)

/-- Witness for C10: the concrete withdrawal event, processed on an empty
store with a failing Telegram transport, is marked before the delivery
attempt; reprocessing it against the resulting Redis store delivers
nothing. -/
theorem mark_processed_before_delivery_witness :
    processEventMem [] .transportError evWithdraw =
      (["abc123"],
       [.dedupCheck "abc123" false,
        .markProcessed "abc123",
        .deliver (formatTelegramMessage (decodeWebhookEvent evWithdraw)) none]) ∧
    deliveries (processEventRedis (processEventRedis [] envSendFail evWithdraw).1
      envSendFail evWithdraw).2 = [] := by
  constructor
  · have h := (mark_processed_before_delivery.1 [] .transportError evWithdraw
      rfl (by decide)).1
    rw [h]
    rfl
  · exact (mark_processed_before_delivery.2 [] envSendFail evWithdraw
      rfl rfl rfl (by decide)).2 envSendFail

/-- C8 counterexample: a matched withdrawal event, absent from the store,
whose `redis.get` throws, is dropped with only the failed lookup logged: no
filter outcome is acted on, no decode/format happens and no delivery is
attempted, contradicting the claim that such an event is treated as
not-yet-known and still processed. -/
theorem redis_store_failure_drops_event_cex :
    withdrawMatch evWithdraw = true ∧
    ([] : List String).contains (txKey evWithdraw.signature) = false ∧
    processEventRedis [] envGetFail evWithdraw = ([], [.dedupCheckFailed "abc123"]) ∧
    deliveries (processEventRedis [] envGetFail evWithdraw).2 = [] := by
  exact ⟨by decide, rfl, rfl, rfl⟩

/-- C8 (amended): in the Redis variant a store failure does not abort the
remaining events of the batch — the loop continues exactly as the batch
without the failing event — but the failing event is not processed further:
a lookup failure abandons it with only the failed lookup in the trace, and a
write failure on an unseen event abandons the remaining steps of that event
(so a matched event gets no decode/format/delivery). -/
theorem redis_store_failure_skips_event_batch_continues :
    (∀ (store : List String) (envs : Nat → RedisEnv) (e : Event) (rest : List Event),
        (envs 0).getFails = true →
        processBatchRedis store (e :: rest) envs =
          ((processBatchRedis store rest (fun i => envs (i + 1))).1,
           .dedupCheckFailed e.signature ::
             (processBatchRedis store rest (fun i => envs (i + 1))).2)) ∧
    (∀ (store : List String) (env : RedisEnv) (e : Event),
        env.getFails = false → env.setFails = true →
        store.contains (txKey e.signature) = false →
        processEventRedis store env e =
          (store, [.dedupCheck e.signature false, .markFailed e.signature])) := by
  constructor
  · intro store envs e rest hg
    have he : processEventRedis store (envs 0) e = (store, [.dedupCheckFailed e.signature]) := by
      unfold processEventRedis
      rw [if_pos hg]
    simp only [processBatchRedis]
    rw [he]
    rfl
  · intro store env e hg hs hc
    simp [processEventRedis, hg, hs]
    simpa using hc

/-- Witness for C8 (amended): a two-event batch whose first lookup throws
still processes the second event; a concrete write failure yields the
failed-write trace with no delivery. -/
theorem redis_store_failure_skips_event_batch_continues_witness :
    processBatchRedis [] [evWithdraw, evDeposit] envsMixed =
      ((processBatchRedis [] [evDeposit] (fun i => envsMixed (i + 1))).1,
       .dedupCheckFailed "abc123" ::
         (processBatchRedis [] [evDeposit] (fun i => envsMixed (i + 1))).2) ∧
    processEventRedis [] envSetFail evWithdraw =
      ([], [.dedupCheck "abc123" false, .markFailed "abc123"]) := by
  constructor
  · exact redis_store_failure_skips_event_batch_continues.1 [] envsMixed
      evWithdraw [evDeposit] rfl
  · exact redis_store_failure_skips_event_batch_continues.2 [] envSetFail
      evWithdraw rfl rfl rfl

end KaminoLiquidity
